import Mathlib

/-!
Verification development for the WhyChem platformer (main.py).

The per-frame pipeline of GameView and the PlayerCharacter animation state
machine are shallowly embedded here.  Python float arithmetic on positions,
velocities and camera coordinates is idealised as exact rational arithmetic.
External collaborators (the arcade physics engine, tilemap loader, camera and
collision queries) are modelled as per-frame oracle inputs; sounds and other
one-shot side effects are modelled as counters in an effects record.
-/

namespace WhyChem

/-- Screen width constant from main.py. -/
def SCREEN_WIDTH : ℚ := 1000

/-- Screen height constant from main.py. -/
def SCREEN_HEIGHT : ℚ := 650

/-- Tile scaling constant from main.py. -/
def TILE_SCALING : ℚ := 4

/-- Sprite pixel size constant from main.py. -/
def SPRITE_PIXEL_SIZE : ℚ := 128

/-- Grid pixel size, SPRITE_PIXEL_SIZE * TILE_SCALING = 512. -/
def GRID_PIXEL_SIZE : ℚ := SPRITE_PIXEL_SIZE * TILE_SCALING

/-- Horizontal and ladder movement speed, pixels per frame. -/
def PLAYER_MOVEMENT_SPEED : ℚ := 7

/-- Gravity constant from main.py (1.4). -/
def GRAVITY : ℚ := 7 / 5

/-- Vertical velocity given to the player on a jump. -/
def PLAYER_JUMP_SPEED : ℚ := 30

/-- Player start x coordinate, SCREEN_WIDTH / 4. -/
def PLAYER_START_X : ℚ := SCREEN_WIDTH / 4

/-- Player start y coordinate, SCREEN_HEIGHT / 4. -/
def PLAYER_START_Y : ℚ := SCREEN_HEIGHT / 4

/-- Facing-right marker (index into texture pairs). -/
def RIGHT_FACING : Nat := 0

/-- Facing-left marker (index into texture pairs). -/
def LEFT_FACING : Nat := 1

/-- Ends of each map in grid units: [7.25, 12.26, 12.26, 12.26]. -/
def END_OF_MAP : List ℚ := [29 / 4, 613 / 50, 613 / 50, 613 / 50]

/-- Discrete animation pose chosen by update_animation; stands for the texture
assigned to the sprite. -/
inductive Tex where
  | idle (face : Nat)
  | jump (face : Nat)
  | fall (face : Nat)
  | walk (frame : Nat) (face : Nat)
  | climb (frame : Nat)
deriving DecidableEq, Repr

/-- Whether a pose is one of the climbing textures. -/
def Tex.isClimb : Tex → Bool
  | .climb _ => true
  | _ => false

/-- State of the PlayerCharacter sprite.  Fields mirror the attributes set in
PlayerCharacter and by GameView.  A freshly constructed PlayerCharacter has
exactly these default values (facing right, counter 0, all flags clear, idle
texture); half_width stands for the sprite half width taken from the loaded
image asset. -/
structure Player where
  center_x : ℚ := 0
  center_y : ℚ := 0
  change_x : ℚ := 0
  change_y : ℚ := 0
  character_face_direction : Nat := RIGHT_FACING
  cur_texture : Nat := 0
  jumping : Bool := false
  climbing : Bool := false
  is_on_ladder : Bool := false
  can_jump : Bool := false
  texture : Tex := Tex.idle RIGHT_FACING
  half_width : ℚ := 0
deriving DecidableEq, Repr

/-- Right edge of the player sprite. -/
def Player.right (p : Player) : ℚ := p.center_x + p.half_width

/-- Walk/climb frame counter increment: add one, reset to 0 past 7. -/
def bump (n : Nat) : Nat := if n + 1 > 7 then 0 else n + 1

/-- Facing update at the top of update_animation: flip to LEFT_FACING only when
moving left while facing right, to RIGHT_FACING only when moving right while
facing left. -/
def anim_face (p : Player) : Player :=
  if p.change_x < 0 ∧ p.character_face_direction = RIGHT_FACING then
    { p with character_face_direction := LEFT_FACING }
  else if 0 < p.change_x ∧ p.character_face_direction = LEFT_FACING then
    { p with character_face_direction := RIGHT_FACING }
  else p

/-- Climbing-flag update of update_animation: set while on a ladder, cleared
when not on a ladder (both checks run in the same call, in this order). -/
def anim_climb_flag (p : Player) : Player :=
  let p1 := if p.is_on_ladder = true then { p with climbing := true } else p
  if p1.is_on_ladder = false ∧ p1.climbing = true then { p1 with climbing := false } else p1

/-- Climb-frame advance of update_animation: counter moves only while the
(climbing) flag is set and the vertical speed exceeds 1. -/
def anim_climb_count (p : Player) : Player :=
  if p.climbing = true ∧ 1 < abs p.change_y then { p with cur_texture := bump p.cur_texture }
  else p

/-- Pose selection tail of update_animation: climb, jump, fall, idle or walk,
in the priority order of the source; the walking branch advances the frame
counter and uses the advanced value. -/
def anim_pose (p : Player) : Player :=
  if p.climbing = true then { p with texture := Tex.climb (p.cur_texture / 4) }
  else if 0 < p.change_y ∧ p.is_on_ladder = false then
    { p with texture := Tex.jump p.character_face_direction }
  else if p.change_y < 0 ∧ p.is_on_ladder = false then
    { p with texture := Tex.fall p.character_face_direction }
  else if p.change_x = 0 then { p with texture := Tex.idle p.character_face_direction }
  else { p with cur_texture := bump p.cur_texture,
                texture := Tex.walk (bump p.cur_texture) p.character_face_direction }

/-- PlayerCharacter.update_animation, stage by stage in source order. -/
def update_animation (p : Player) : Player :=
  anim_pose (anim_climb_count (anim_climb_flag (anim_face p)))

/-- Run a sequence of update_animation calls; before each call the velocity
components and ladder flag are set externally (by the physics step and the
ladder check of on_update), as a triple (dx, dy, onLadder). -/
def anim_run (p : Player) : List (ℚ × ℚ × Bool) → Player
  | [] => p
  | (dx, dy, lad) :: rest =>
      anim_run (update_animation { p with change_x := dx, change_y := dy, is_on_ladder := lad }) rest

/-- Keys handled by on_key_press and on_key_release.  UP and W collapse to up,
and so on; space is the advance key; other stands for any unhandled key. -/
inductive Key where
  | up
  | down
  | left
  | right
  | space
  | other
deriving DecidableEq, Repr

/-- One coin sprite of the Coins layer, identified by its map id and center. -/
structure Coin where
  id : Nat
  x : ℚ := 0
  y : ℚ := 0
deriving DecidableEq, Repr

/-- One sprite of a background layer, tracked by its left coordinate. -/
structure Sprite where
  left : ℚ
deriving DecidableEq, Repr

/-- One background layer of the scene (the name-sorted layers outside
NON_BACKGROUND_LAYERS). -/
structure BgLayer where
  sprites : List Sprite
deriving DecidableEq, Repr

/-- State of the GameView instance: key booleans, player sprite, level data,
score, level-transition flags, parallax bookkeeping, coin layer and
background layers. -/
structure GameState where
  left_pressed : Bool := false
  right_pressed : Bool := false
  up_pressed : Bool := false
  down_pressed : Bool := false
  jump_needs_reset : Bool := false
  player : Player := {}
  end_of_map : ℚ := 0
  score : Nat := 0
  level : Nat := 1
  max_level : Nat := 4
  level_over : Bool := false
  next_level : Bool := false
  camera_x : ℚ := 0
  camera_x_prev : ℚ := PLAYER_START_X
  coins : List Coin := []
  bg_layers : List BgLayer := []
  music_playing : Bool := true
deriving DecidableEq, Repr

/-- One-shot external side effects fired during a call (sound playbacks, the
end-view switch, the fixed-duration victory pause). -/
structure Fx where
  jump_sounds : Nat := 0
  coin_sounds : Nat := 0
  victory_sounds : Nat := 0
  show_end_view : Bool := false
  slept : Bool := false
deriving DecidableEq, Repr

/-- Pointwise sum of effects of consecutive calls. -/
def Fx.add (a b : Fx) : Fx :=
  { jump_sounds := a.jump_sounds + b.jump_sounds
    coin_sounds := a.coin_sounds + b.coin_sounds
    victory_sounds := a.victory_sounds + b.victory_sounds
    show_end_view := a.show_end_view || b.show_end_view
    slept := a.slept || b.slept }

/-- Assignment player_sprite.change_y = v. -/
def setChangeY (v : ℚ) (s : GameState) : GameState :=
  { s with player := { s.player with change_y := v } }

/-- Assignment player_sprite.change_x = v. -/
def setChangeX (v : ℚ) (s : GameState) : GameState :=
  { s with player := { s.player with change_x := v } }

/-- Up/down block of process_keychange.  l is physics_engine.is_on_ladder();
c is physics_engine.can_jump(y_distance=10).  The Nat output counts jump-sound
playbacks (the jump branch also latches jump_needs_reset). -/
def pk_updown (l c : Bool) (s : GameState) : GameState × Nat :=
  if s.up_pressed = true ∧ s.down_pressed = false then
    if l = true then (setChangeY PLAYER_MOVEMENT_SPEED s, 0)
    else if c = true ∧ s.jump_needs_reset = false then
      ({ setChangeY PLAYER_JUMP_SPEED s with jump_needs_reset := true }, 1)
    else (s, 0)
  else if s.down_pressed = true ∧ s.up_pressed = false then
    if l = true then (setChangeY (-PLAYER_MOVEMENT_SPEED) s, 0) else (s, 0)
  else (s, 0)

/-- Ladder-neutral block of process_keychange: on a ladder with neither or
both of up/down pressed, the vertical velocity is zeroed. -/
def pk_ladder_neutral (l : Bool) (s : GameState) : GameState :=
  if l = true then
    if s.up_pressed = false ∧ s.down_pressed = false then setChangeY 0 s
    else if s.up_pressed = true ∧ s.down_pressed = true then setChangeY 0 s
    else s
  else s

/-- Left/right block of process_keychange. -/
def pk_leftright (s : GameState) : GameState :=
  if s.right_pressed = true ∧ s.left_pressed = false then setChangeX PLAYER_MOVEMENT_SPEED s
  else if s.left_pressed = true ∧ s.right_pressed = false then
    setChangeX (-PLAYER_MOVEMENT_SPEED) s
  else setChangeX 0 s

/-- GameView.process_keychange.  The whole body is guarded by
(not self.level_over); the Nat output counts jump-sound playbacks. -/
def process_keychange (l c : Bool) (s : GameState) : GameState × Nat :=
  if s.level_over = true then (s, 0)
  else (pk_leftright (pk_ladder_neutral l (pk_updown l c s).1), (pk_updown l c s).2)

/-- Key-boolean updates of GameView.on_key_press (before the trailing
process_keychange call): space sets next_level only while level_over holds. -/
def set_key_press (k : Key) (s : GameState) : GameState :=
  match k with
  | .up => { s with up_pressed := true }
  | .down => { s with down_pressed := true }
  | .left => { s with left_pressed := true }
  | .right => { s with right_pressed := true }
  | .space => if s.level_over = true then { s with next_level := true } else s
  | .other => s

/-- Key-boolean updates of GameView.on_key_release: releasing up also clears
jump_needs_reset. -/
def set_key_release (k : Key) (s : GameState) : GameState :=
  match k with
  | .up => { s with up_pressed := false, jump_needs_reset := false }
  | .down => { s with down_pressed := false }
  | .left => { s with left_pressed := false }
  | .right => { s with right_pressed := false }
  | _ => s

/-- GameView.on_key_press: record the key, then process_keychange. -/
def on_key_press (k : Key) (l c : Bool) (s : GameState) : GameState × Nat :=
  process_keychange l c (set_key_press k s)

/-- GameView.on_key_release: record the key, then process_keychange. -/
def on_key_release (k : Key) (l c : Bool) (s : GameState) : GameState × Nat :=
  process_keychange l c (set_key_release k s)

/-- Per-frame inputs from the external collaborators: the physics engine
queries and integration step, the camera position read at the top of the
parallax block, the coin collision test of this frame, the tilemap loader
(coins and background layers per level number) and the player sprite half
width taken from the image assets. -/
structure Oracle where
  can_jump0 : Bool := false
  can_jump10 : Bool := false
  is_on_ladder : Bool := false
  physics : Player → Player := fun p => p
  camera_pos : ℚ := 0
  collides : Coin → Bool := fun _ => false
  load_scene : Nat → List Coin × List BgLayer := fun _ => ([], [])
  player_half_width : ℚ := 0

/-- A freshly constructed PlayerCharacter (all defaults; the half width comes
from the loaded idle texture). -/
def freshPlayer (hw : ℚ) : Player := { half_width := hw }

/-- GameView.load_level: fresh tilemap scene, fresh PlayerCharacter placed at
the start position, end-of-map boundary from the END_OF_MAP table, and the
parallax previous-camera sample reset.  Layer options, platform-list merging
and the physics engine construction act only on external collaborator state
and are not tracked. -/
def load_level (o : Oracle) (level : Nat) (s : GameState) : GameState :=
  { s with
    player := { freshPlayer o.player_half_width with
                  center_x := PLAYER_START_X, center_y := PLAYER_START_Y }
    end_of_map := (END_OF_MAP.getD (level - 1) 0) * GRID_PIXEL_SIZE
    coins := (o.load_scene level).1
    bg_layers := (o.load_scene level).2
    camera_x_prev := PLAYER_START_X }

/-- GameView.setup: reload the current level, then reset the score and start
the theme music. -/
def setup (o : Oracle) (s : GameState) : GameState :=
  { load_level o s.level s with score := 0, music_playing := true }

/-- One background layer under the parallax shift of on_update: every sprite
left coordinate moves by delta / ((count + 4) * 0.25), except that layer
index 3 of level 4 is left untouched. -/
def shifted_layer (level : Nat) (delta : ℚ) (count : Nat) (layer : BgLayer) : BgLayer :=
  if level = 4 ∧ count = 3 then layer
  else { layer with sprites := layer.sprites.map fun sp =>
          { sp with left := sp.left + delta / (((count : ℚ) + 4) * (1 / 4)) } }

/-- The enumerate loop over the background layers, carrying the running
index. -/
def shift_layers (level : Nat) (delta : ℚ) : Nat → List BgLayer → List BgLayer
  | _, [] => []
  | count, layer :: rest =>
      shifted_layer level delta count layer :: shift_layers level delta (count + 1) rest

/-- Parallax block of on_update: only on levels above 1, shift each background
layer by the camera delta scaled by its index divisor. -/
def parallax_shift (level : Nat) (camera_x camera_x_prev : ℚ) (layers : List BgLayer) :
    List BgLayer :=
  if 1 < level then shift_layers level (camera_x - camera_x_prev) 0 layers else layers

/-- The physics_engine.update() call of on_update, via the oracle. -/
def apply_physics (o : Oracle) (s : GameState) : GameState :=
  { s with player := o.physics s.player }

/-- The can_jump bookkeeping of on_update (the sprite attribute is set to the
negation of the physics query, as in the source). -/
def set_can_jump (o : Oracle) (s : GameState) : GameState :=
  { s with player := { s.player with can_jump := !o.can_jump0 } }

/-- The ladder-flag bookkeeping of on_update: the sprite flag holds exactly
when the physics engine reports a ladder and not can_jump. -/
def set_ladder_flag (o : Oracle) (s : GameState) : GameState :=
  { s with player := { s.player with is_on_ladder := o.is_on_ladder && !o.can_jump0 } }

/-- Parallax and camera bookkeeping of on_update: read the camera position,
shift the background layers against the previous sample, then store the new
sample. -/
def apply_parallax (o : Oracle) (s : GameState) : GameState :=
  { s with
    camera_x := o.camera_pos
    bg_layers := parallax_shift s.level o.camera_pos s.camera_x_prev s.bg_layers
    camera_x_prev := o.camera_pos }

/-- Coin collision block of on_update: every hit coin adds 10 points, is
removed from the coin list, and plays the coin sound once; the Nat output is
the number of coin sounds. -/
def coin_phase (o : Oracle) (s : GameState) : GameState × Nat :=
  ({ s with
      score := s.score + 10 * (s.coins.filter fun c => o.collides c).length
      coins := s.coins.filter fun c => !o.collides c },
   (s.coins.filter fun c => o.collides c).length)

/-- The else branch of on_update (player right edge short of the boundary):
physics step, jump/ladder bookkeeping, process_keychange, parallax, player
animation, then coin collisions. -/
def frame_else (o : Oracle) (s : GameState) : GameState × Fx :=
  let s3 := set_ladder_flag o (set_can_jump o (apply_physics o s))
  let r := process_keychange o.is_on_ladder o.can_jump10 s3
  let s5 := apply_parallax o r.1
  let s6 := { s5 with player := update_animation s5.player }
  let rc := coin_phase o s6
  (rc.1, { jump_sounds := r.2, coin_sounds := rc.2 })

/-- The boundary branch of on_update (player right edge at or past the
end-of-map boundary): first crossing of level 4 plays the victory sound and
pauses; below the maximum level, level_over is set and, once next_level holds,
the next level is loaded and the player is placed at the re-entry point with
zero velocity; at the maximum level the music stops, level_over is set, and
next_level switches to the end view. -/
def frame_boundary (o : Oracle) (s : GameState) : GameState × Fx :=
  let vict : Nat := if s.level = 4 ∧ s.level_over = false then 1 else 0
  let slp : Bool := decide (s.level = 4 ∧ s.level_over = false)
  if s.level < s.max_level then
    if s.next_level = true then
      let s2 := { s with level_over := false, next_level := false, level := s.level + 1 }
      let s3 := load_level o s2.level s2
      ({ s3 with player := { s3.player with
            center_x := SCREEN_WIDTH, center_y := SCREEN_HEIGHT / 2,
            change_x := 0, change_y := 0 } },
       { victory_sounds := vict, slept := slp })
    else ({ s with level_over := true }, { victory_sounds := vict, slept := slp })
  else
    ({ s with music_playing := false, level_over := true },
     { victory_sounds := vict, slept := slp, show_end_view := s.next_level })

/-- GameView.on_update: boundary branch past the end of the map, else the
normal frame pipeline. -/
def on_update (o : Oracle) (s : GameState) : GameState × Fx :=
  if s.end_of_map ≤ s.player.right then frame_boundary o s else frame_else o s

/-- Run a sequence of on_update frames, one oracle per frame, summing the
effects. -/
def run_frames : List Oracle → GameState → GameState × Fx
  | [], s => (s, {})
  | o :: os, s =>
      ((run_frames os (on_update o s).1).1,
       Fx.add (on_update o s).2 (run_frames os (on_update o s).1).2)

/-- Events that invoke process_keychange: a key press, a key release, or the
per-frame call from on_update, each with the ladder and can_jump oracle
values of that moment. -/
inductive KEvent where
  | press (k : Key) (l c : Bool)
  | release (k : Key) (l c : Bool)
  | frame (l c : Bool)
deriving DecidableEq, Repr

/-- Whether an event is a release of the up key. -/
def KEvent.isReleaseUp : KEvent → Bool
  | .release .up _ _ => true
  | _ => false

/-- Apply one key event. -/
def kstep (s : GameState) : KEvent → GameState × Nat
  | .press k l c => on_key_press k l c s
  | .release k l c => on_key_release k l c s
  | .frame l c => process_keychange l c s

/-- Apply a sequence of key events, counting jump sounds. -/
def krun (s : GameState) : List KEvent → GameState × Nat
  | [] => (s, 0)
  | e :: es => ((krun (kstep s e).1 es).1, (kstep s e).2 + (krun (kstep s e).1 es).2)

/-- The up/down block touches only change_y and jump_needs_reset. -/
lemma pk_updown_shape (l c : Bool) (s : GameState) :
    ∃ cy j, (pk_updown l c s).1 =
      { s with player := { s.player with change_y := cy }, jump_needs_reset := j } := by
  unfold pk_updown setChangeY
  split_ifs <;> exact ⟨_, _, rfl⟩

/-- The ladder-neutral block touches only change_y. -/
lemma pk_ladder_neutral_shape (l : Bool) (s : GameState) :
    ∃ cy, pk_ladder_neutral l s = { s with player := { s.player with change_y := cy } } := by
  unfold pk_ladder_neutral setChangeY
  split_ifs <;> exact ⟨_, rfl⟩

/-- The left/right block touches only change_x. -/
lemma pk_leftright_shape (s : GameState) :
    ∃ cx, pk_leftright s = { s with player := { s.player with change_x := cx } } := by
  unfold pk_leftright setChangeX
  split_ifs <;> exact ⟨_, rfl⟩

/-- process_keychange touches only the velocity components of the player and
the jump_needs_reset flag. -/
lemma process_keychange_shape (l c : Bool) (s : GameState) :
    ∃ cx cy j, (process_keychange l c s).1 =
      { s with player := { s.player with change_x := cx, change_y := cy },
               jump_needs_reset := j } := by
  unfold process_keychange
  split_ifs
  · exact ⟨_, _, _, rfl⟩
  · obtain ⟨cy, j, h1⟩ := pk_updown_shape l c s
    rw [h1]
    obtain ⟨cy2, h2⟩ := pk_ladder_neutral_shape l
      ({ s with player := { s.player with change_y := cy }, jump_needs_reset := j })
    rw [h2]
    obtain ⟨cx, h3⟩ := pk_leftright_shape _
    rw [h3]
    exact ⟨cx, cy2, j, rfl⟩

lemma process_keychange_score (l c : Bool) (s : GameState) :
    (process_keychange l c s).1.score = s.score := by
  obtain ⟨cx, cy, j, h⟩ := process_keychange_shape l c s
  rw [h]

lemma process_keychange_coins (l c : Bool) (s : GameState) :
    (process_keychange l c s).1.coins = s.coins := by
  obtain ⟨cx, cy, j, h⟩ := process_keychange_shape l c s
  rw [h]

lemma process_keychange_bg (l c : Bool) (s : GameState) :
    (process_keychange l c s).1.bg_layers = s.bg_layers := by
  obtain ⟨cx, cy, j, h⟩ := process_keychange_shape l c s
  rw [h]

lemma process_keychange_level (l c : Bool) (s : GameState) :
    (process_keychange l c s).1.level = s.level := by
  obtain ⟨cx, cy, j, h⟩ := process_keychange_shape l c s
  rw [h]

lemma process_keychange_level_over (l c : Bool) (s : GameState) :
    (process_keychange l c s).1.level_over = s.level_over := by
  obtain ⟨cx, cy, j, h⟩ := process_keychange_shape l c s
  rw [h]

lemma process_keychange_next_level (l c : Bool) (s : GameState) :
    (process_keychange l c s).1.next_level = s.next_level := by
  obtain ⟨cx, cy, j, h⟩ := process_keychange_shape l c s
  rw [h]

lemma process_keychange_camera_prev (l c : Bool) (s : GameState) :
    (process_keychange l c s).1.camera_x_prev = s.camera_x_prev := by
  obtain ⟨cx, cy, j, h⟩ := process_keychange_shape l c s
  rw [h]

lemma process_keychange_end_of_map (l c : Bool) (s : GameState) :
    (process_keychange l c s).1.end_of_map = s.end_of_map := by
  obtain ⟨cx, cy, j, h⟩ := process_keychange_shape l c s
  rw [h]

lemma process_keychange_max_level (l c : Bool) (s : GameState) :
    (process_keychange l c s).1.max_level = s.max_level := by
  obtain ⟨cx, cy, j, h⟩ := process_keychange_shape l c s
  rw [h]

/-- A process_keychange call while level_over holds does nothing at all. -/
lemma process_keychange_over (l c : Bool) (s : GameState) (h : s.level_over = true) :
    process_keychange l c s = (s, 0) := by
  unfold process_keychange
  rw [if_pos h]

lemma frame_else_score (o : Oracle) (s : GameState) :
    (frame_else o s).1.score = s.score + 10 * (s.coins.filter fun c => o.collides c).length := by
  simp [frame_else, coin_phase, apply_parallax, set_ladder_flag, set_can_jump, apply_physics,
    process_keychange_score, process_keychange_coins]

lemma frame_else_coins (o : Oracle) (s : GameState) :
    (frame_else o s).1.coins = s.coins.filter fun c => !o.collides c := by
  simp [frame_else, coin_phase, apply_parallax, set_ladder_flag, set_can_jump, apply_physics,
    process_keychange_coins]

lemma frame_else_bg (o : Oracle) (s : GameState) :
    (frame_else o s).1.bg_layers =
      parallax_shift s.level o.camera_pos s.camera_x_prev s.bg_layers := by
  simp [frame_else, coin_phase, apply_parallax, set_ladder_flag, set_can_jump, apply_physics,
    process_keychange_bg, process_keychange_level, process_keychange_camera_prev]

lemma frame_else_level (o : Oracle) (s : GameState) :
    (frame_else o s).1.level = s.level := by
  simp [frame_else, coin_phase, apply_parallax, set_ladder_flag, set_can_jump, apply_physics,
    process_keychange_level]

lemma frame_else_level_over (o : Oracle) (s : GameState) :
    (frame_else o s).1.level_over = s.level_over := by
  simp [frame_else, coin_phase, apply_parallax, set_ladder_flag, set_can_jump, apply_physics,
    process_keychange_level_over]

lemma frame_else_next_level (o : Oracle) (s : GameState) :
    (frame_else o s).1.next_level = s.next_level := by
  simp [frame_else, coin_phase, apply_parallax, set_ladder_flag, set_can_jump, apply_physics,
    process_keychange_next_level]

lemma frame_else_end_of_map (o : Oracle) (s : GameState) :
    (frame_else o s).1.end_of_map = s.end_of_map := by
  simp [frame_else, coin_phase, apply_parallax, set_ladder_flag, set_can_jump, apply_physics,
    process_keychange_end_of_map]

lemma frame_else_max_level (o : Oracle) (s : GameState) :
    (frame_else o s).1.max_level = s.max_level := by
  simp [frame_else, coin_phase, apply_parallax, set_ladder_flag, set_can_jump, apply_physics,
    process_keychange_max_level]

lemma frame_else_fx_coin (o : Oracle) (s : GameState) :
    (frame_else o s).2.coin_sounds = (s.coins.filter fun c => o.collides c).length := by
  simp [frame_else, coin_phase, apply_parallax, set_ladder_flag, set_can_jump, apply_physics,
    process_keychange_coins]

lemma frame_else_fx_victory (o : Oracle) (s : GameState) :
    (frame_else o s).2.victory_sounds = 0 := by
  simp [frame_else]

/-- A boundary frame without a pending advance request only latches
level_over (and stops the music at the final level); player, level, score,
coins and the boundary itself are untouched, and the victory sound fires only
if this is the first level-4 crossing. -/
lemma boundary_no_advance (o : Oracle) (s : GameState) (hnl : s.next_level = false) :
    frame_boundary o s =
      ({ s with level_over := true,
                music_playing := if s.level < s.max_level then s.music_playing else false },
       { victory_sounds := if s.level = 4 ∧ s.level_over = false then 1 else 0,
         slept := decide (s.level = 4 ∧ s.level_over = false) }) := by
  unfold frame_boundary
  rw [hnl]
  by_cases h1 : s.level < s.max_level
  · rw [if_pos h1, if_neg Bool.false_ne_true, if_pos h1]
  · rw [if_neg h1, if_neg h1]

/-- A boundary frame with a pending advance request below the maximum level
increments the level once, clears both flags, loads the next level with a
fresh player placed at the re-entry point with zero velocity, and leaves the
score untouched. -/
lemma boundary_advance (o : Oracle) (s : GameState)
    (hnl : s.next_level = true) (hlt : s.level < s.max_level) :
    frame_boundary o s =
      ({ s with level_over := false, next_level := false, level := s.level + 1,
                player := { freshPlayer o.player_half_width with
                              center_x := SCREEN_WIDTH, center_y := SCREEN_HEIGHT / 2,
                              change_x := 0, change_y := 0 },
                end_of_map := (END_OF_MAP.getD s.level 0) * GRID_PIXEL_SIZE,
                coins := (o.load_scene (s.level + 1)).1,
                bg_layers := (o.load_scene (s.level + 1)).2,
                camera_x_prev := PLAYER_START_X },
       { victory_sounds := if s.level = 4 ∧ s.level_over = false then 1 else 0,
         slept := decide (s.level = 4 ∧ s.level_over = false) }) := by
  unfold frame_boundary load_level freshPlayer
  rw [if_pos hlt, if_pos hnl]
  rfl

lemma Fx_add_victory (a b : Fx) :
    (Fx.add a b).victory_sounds = a.victory_sounds + b.victory_sounds := rfl

/-- Once level_over is latched past the boundary with no advance request,
any further frame sequence keeps the level, keeps the latch, and fires no
victory sound. -/
lemma frames_latched (os : List Oracle) (s : GameState)
    (hb : s.end_of_map ≤ s.player.right) (hlo : s.level_over = true)
    (hnl : s.next_level = false) :
    (run_frames os s).1.level = s.level ∧ (run_frames os s).1.level_over = true ∧
    (run_frames os s).2.victory_sounds = 0 := by
  induction os generalizing s with
  | nil => exact ⟨rfl, hlo, rfl⟩
  | cons o os ih =>
    have honu : on_update o s =
        ({ s with level_over := true,
                  music_playing := if s.level < s.max_level then s.music_playing else false },
         { victory_sounds := if s.level = 4 ∧ s.level_over = false then 1 else 0,
           slept := decide (s.level = 4 ∧ s.level_over = false) }) := by
      unfold on_update
      rw [if_pos hb]
      exact boundary_no_advance o s hnl
    have hrec := ih ({ s with level_over := true, music_playing := if s.level < s.max_level then s.music_playing else false }) hb rfl hnl
    have hvict : (if s.level = 4 ∧ s.level_over = false then (1 : Nat) else 0) = 0 := by
      rw [if_neg]
      intro hcon
      rw [hlo] at hcon
      exact Bool.noConfusion hcon.2
    refine ⟨?_, ?_, ?_⟩
    · simp only [run_frames, honu]
      exact hrec.1
    · simp only [run_frames, honu]
      exact hrec.2.1
    · simp only [run_frames, honu, Fx.add]
      simp only [hvict, hrec.2.2]

/-- Concrete oracle for witness evaluation: identity physics, no ladder, no
collisions, empty loaded scenes. -/
def oracleW : Oracle := {}

/-- Claim C1: for every frame sequence past the end-of-map boundary, level_over
is set on the first frame and latches on every later frame while no advance is
requested; on such frames the level number and the player are unchanged and
the victory sound is never re-triggered once level_over holds; the level is
incremented exactly once, only on a frame where next_level is set (below the
maximum level), which also clears both flags and fires no victory sound. -/
theorem C1_boundary_latch (o : Oracle) (os : List Oracle) (s : GameState)
    (hb : s.end_of_map ≤ s.player.right) (hmax : s.max_level = 4) :
    (s.next_level = false →
      (on_update o s).1.level_over = true ∧
      (on_update o s).1.level = s.level ∧
      (on_update o s).1.player = s.player ∧
      (on_update o s).1.end_of_map = s.end_of_map ∧
      (s.level_over = true → (on_update o s).2.victory_sounds = 0) ∧
      (run_frames os (on_update o s).1).1.level = s.level ∧
      (run_frames os (on_update o s).1).1.level_over = true ∧
      (run_frames os (on_update o s).1).2.victory_sounds = 0) ∧
    (s.next_level = true → s.level < s.max_level →
      (on_update o s).1.level = s.level + 1 ∧
      (on_update o s).1.level_over = false ∧
      (on_update o s).1.next_level = false ∧
      (on_update o s).2.victory_sounds = 0) := by
  have honu : on_update o s = frame_boundary o s := by
    unfold on_update
    rw [if_pos hb]
  constructor
  · intro hnl
    have hlat := frames_latched os ({ s with level_over := true, music_playing := if s.level < s.max_level then s.music_playing else false }) hb rfl hnl
    rw [honu, boundary_no_advance o s hnl]
    refine ⟨rfl, rfl, rfl, rfl, ?_, hlat.1, hlat.2.1, hlat.2.2⟩
    intro hlo
    simp [hlo]
  · intro hnl hlt
    rw [honu, boundary_advance o s hnl hlt]
    have hvict : (if s.level = 4 ∧ s.level_over = false then (1 : Nat) else 0) = 0 := by
      rw [if_neg]
      intro hcon
      rw [hmax, hcon.1] at hlt
      exact lt_irrefl 4 hlt
    exact ⟨rfl, rfl, rfl, hvict⟩

/-- Concrete past-boundary state for the C1 witness: level 1, right edge past
the level-1 boundary of 3712 pixels. -/
def c1s : GameState :=
  { player := { center_x := 4000, half_width := 10 }, end_of_map := 3712,
    level := 1, max_level := 4, level_over := false, next_level := false }

theorem C1_boundary_latch_witness :
    (c1s.end_of_map ≤ c1s.player.right ∧ c1s.max_level = 4) ∧
    ((c1s.next_level = false →
      (on_update oracleW c1s).1.level_over = true ∧
      (on_update oracleW c1s).1.level = c1s.level ∧
      (on_update oracleW c1s).1.player = c1s.player ∧
      (on_update oracleW c1s).1.end_of_map = c1s.end_of_map ∧
      (c1s.level_over = true → (on_update oracleW c1s).2.victory_sounds = 0) ∧
      (run_frames [oracleW] (on_update oracleW c1s).1).1.level = c1s.level ∧
      (run_frames [oracleW] (on_update oracleW c1s).1).1.level_over = true ∧
      (run_frames [oracleW] (on_update oracleW c1s).1).2.victory_sounds = 0) ∧
     (c1s.next_level = true → c1s.level < c1s.max_level →
      (on_update oracleW c1s).1.level = c1s.level + 1 ∧
      (on_update oracleW c1s).1.level_over = false ∧
      (on_update oracleW c1s).1.next_level = false ∧
      (on_update oracleW c1s).2.victory_sounds = 0)) :=
  ⟨⟨by norm_num [c1s, Player.right], rfl⟩,
   C1_boundary_latch oracleW [oracleW] c1s (by norm_num [c1s, Player.right]) rfl⟩

lemma set_key_press_jnr (k : Key) (s : GameState) :
    (set_key_press k s).jump_needs_reset = s.jump_needs_reset := by
  cases k <;> try rfl
  unfold set_key_press
  split_ifs <;> rfl

lemma pk_ladder_neutral_jnr (l : Bool) (s : GameState) :
    (pk_ladder_neutral l s).jump_needs_reset = s.jump_needs_reset := by
  obtain ⟨cy, h⟩ := pk_ladder_neutral_shape l s
  rw [h]

lemma pk_leftright_jnr (s : GameState) :
    (pk_leftright s).jump_needs_reset = s.jump_needs_reset := by
  obtain ⟨cx, h⟩ := pk_leftright_shape s
  rw [h]

lemma pk_leftright_cy (s : GameState) :
    (pk_leftright s).player.change_y = s.player.change_y := by
  obtain ⟨cx, h⟩ := pk_leftright_shape s
  rw [h]

/-- While jump_needs_reset is latched, the up/down block cannot fire a jump
and keeps the latch. -/
lemma pk_updown_no_jump (l c : Bool) (s : GameState) (h : s.jump_needs_reset = true) :
    (pk_updown l c s).2 = 0 ∧ (pk_updown l c s).1.jump_needs_reset = true := by
  unfold pk_updown setChangeY
  split_ifs <;> simp_all

/-- While jump_needs_reset is latched, process_keychange fires no jump sound
and keeps the latch. -/
lemma process_keychange_no_jump (l c : Bool) (s : GameState) (h : s.jump_needs_reset = true) :
    (process_keychange l c s).2 = 0 ∧ (process_keychange l c s).1.jump_needs_reset = true := by
  unfold process_keychange
  split_ifs with hlo
  · exact ⟨rfl, h⟩
  · obtain ⟨ha, hb⟩ := pk_updown_no_jump l c s h
    refine ⟨ha, ?_⟩
    rw [pk_leftright_jnr, pk_ladder_neutral_jnr]
    exact hb

/-- A key event that is not a release of up cannot fire a jump while
jump_needs_reset is latched, and keeps the latch. -/
lemma kstep_no_jump (s : GameState) (e : KEvent) (h : s.jump_needs_reset = true)
    (he : e.isReleaseUp = false) :
    (kstep s e).2 = 0 ∧ (kstep s e).1.jump_needs_reset = true := by
  cases e with
  | press k l c =>
    have hk : (set_key_press k s).jump_needs_reset = true := by
      rw [set_key_press_jnr]
      exact h
    exact process_keychange_no_jump l c _ hk
  | release k l c =>
    cases k with
    | up => simp [KEvent.isReleaseUp] at he
    | down => exact process_keychange_no_jump l c _ h
    | left => exact process_keychange_no_jump l c _ h
    | right => exact process_keychange_no_jump l c _ h
    | space => exact process_keychange_no_jump l c _ h
    | other => exact process_keychange_no_jump l c _ h
  | frame l c => exact process_keychange_no_jump l c s h

/-- While jump_needs_reset is latched and no release of up occurs, a whole
event sequence fires no jump and keeps the latch. -/
lemma krun_no_jump (s : GameState) (es : List KEvent) (h : s.jump_needs_reset = true)
    (hes : ∀ e ∈ es, e.isReleaseUp = false) :
    (krun s es).2 = 0 ∧ (krun s es).1.jump_needs_reset = true := by
  induction es generalizing s with
  | nil => exact ⟨rfl, h⟩
  | cons e es ih =>
    have he := hes e (List.mem_cons_self e es)
    obtain ⟨ha, hb⟩ := kstep_no_jump s e h he
    have hrest := ih (kstep s e).1 hb fun x hx => hes x (List.mem_cons_of_mem e hx)
    simp only [krun]
    exact ⟨by rw [ha, hrest.1], hrest.2⟩

/-- The jump branch of the up/down block fires when up is the only vertical
key, the player is not on a ladder, can_jump holds and the latch is clear. -/
lemma pk_updown_fires (s : GameState) (hup : s.up_pressed = true)
    (hdn : s.down_pressed = false) (hj : s.jump_needs_reset = false) :
    pk_updown false true s =
      ({ setChangeY PLAYER_JUMP_SPEED s with jump_needs_reset := true }, 1) := by
  unfold pk_updown
  rw [if_pos ⟨hup, hdn⟩, if_neg Bool.false_ne_true, if_pos ⟨rfl, hj⟩]

/-- A grounded process_keychange call with up held, down clear and a clear
latch fires the jump exactly once: one jump sound, the latch set, and the
vertical velocity set to PLAYER_JUMP_SPEED. -/
lemma process_keychange_fires (s : GameState) (hlo : s.level_over = false)
    (hup : s.up_pressed = true) (hdn : s.down_pressed = false)
    (hj : s.jump_needs_reset = false) :
    (process_keychange false true s).2 = 1 ∧
    (process_keychange false true s).1.jump_needs_reset = true ∧
    (process_keychange false true s).1.player.change_y = PLAYER_JUMP_SPEED := by
  unfold process_keychange
  rw [if_neg (by rw [hlo]; exact Bool.noConfusion), pk_updown_fires s hup hdn hj]
  refine ⟨rfl, ?_, ?_⟩
  · rw [pk_leftright_jnr, pk_ladder_neutral_jnr]
  · rw [pk_leftright_cy]
    rfl

/-- Claim C2: pressing up once while grounded (can_jump with tolerance 10,
not on a ladder, level running, latch clear) sets the vertical velocity to
PLAYER_JUMP_SPEED and fires the jump sound exactly once; across any further
events in which up is never released, no second jump fires. -/
theorem C2_single_jump (s : GameState) (es : List KEvent)
    (h1 : s.level_over = false) (h2 : s.jump_needs_reset = false)
    (h3 : s.down_pressed = false)
    (hes : ∀ e ∈ es, e.isReleaseUp = false) :
    (krun s (KEvent.press Key.up false true :: es)).2 = 1 ∧
    (on_key_press Key.up false true s).2 = 1 ∧
    (on_key_press Key.up false true s).1.player.change_y = PLAYER_JUMP_SPEED ∧
    (on_key_press Key.up false true s).1.jump_needs_reset = true := by
  have hfire := process_keychange_fires ({ s with up_pressed := true }) h1 rfl h3 h2
  have hlatch := krun_no_jump (kstep s (KEvent.press Key.up false true)).1 es hfire.2.1 hes
  refine ⟨?_, hfire.1, hfire.2.2, hfire.2.1⟩
  simp only [krun, kstep, on_key_press, set_key_press]
  simp only [kstep, on_key_press, set_key_press] at hlatch
  rw [hlatch.1, hfire.1]

/-- Concrete running state for the C2 witness. -/
def c2s : GameState :=
  { level_over := false, jump_needs_reset := false, down_pressed := false }

/-- Concrete held-key event tail for the C2 witness: two further grounded
frames with up still held. -/
def c2es : List KEvent := [KEvent.frame false true, KEvent.frame false true]

theorem C2_single_jump_witness :
    (c2s.level_over = false ∧ c2s.jump_needs_reset = false ∧ c2s.down_pressed = false ∧
      (∀ e ∈ c2es, e.isReleaseUp = false)) ∧
    ((krun c2s (KEvent.press Key.up false true :: c2es)).2 = 1 ∧
     (on_key_press Key.up false true c2s).2 = 1 ∧
     (on_key_press Key.up false true c2s).1.player.change_y = PLAYER_JUMP_SPEED ∧
     (on_key_press Key.up false true c2s).1.jump_needs_reset = true) :=
  ⟨⟨rfl, rfl, rfl, by decide⟩,
   C2_single_jump c2s c2es rfl rfl rfl (by decide)⟩

lemma anim_face_cur (p : Player) : (anim_face p).cur_texture = p.cur_texture := by
  unfold anim_face
  split_ifs <;> rfl

lemma anim_face_lad (p : Player) : (anim_face p).is_on_ladder = p.is_on_ladder := by
  unfold anim_face
  split_ifs <;> rfl

lemma anim_face_dx (p : Player) : (anim_face p).change_x = p.change_x := by
  unfold anim_face
  split_ifs <;> rfl

lemma anim_face_dy (p : Player) : (anim_face p).change_y = p.change_y := by
  unfold anim_face
  split_ifs <;> rfl

/-- After the two flag checks, the climbing flag equals the current ladder
flag: it is set while on a ladder and cleared in the same call otherwise. -/
lemma anim_climb_flag_climbing (p : Player) :
    (anim_climb_flag p).climbing = p.is_on_ladder := by
  cases h : p.is_on_ladder <;> cases h2 : p.climbing <;> simp [anim_climb_flag, h, h2]

lemma anim_climb_flag_cur (p : Player) : (anim_climb_flag p).cur_texture = p.cur_texture := by
  cases h : p.is_on_ladder <;> cases h2 : p.climbing <;> simp [anim_climb_flag, h, h2]

lemma anim_climb_flag_lad (p : Player) :
    (anim_climb_flag p).is_on_ladder = p.is_on_ladder := by
  cases h : p.is_on_ladder <;> cases h2 : p.climbing <;> simp [anim_climb_flag, h, h2]

lemma anim_climb_flag_dx (p : Player) : (anim_climb_flag p).change_x = p.change_x := by
  cases h : p.is_on_ladder <;> cases h2 : p.climbing <;> simp [anim_climb_flag, h, h2]

lemma anim_climb_flag_dy (p : Player) : (anim_climb_flag p).change_y = p.change_y := by
  cases h : p.is_on_ladder <;> cases h2 : p.climbing <;> simp [anim_climb_flag, h, h2]

lemma anim_climb_flag_face (p : Player) :
    (anim_climb_flag p).character_face_direction = p.character_face_direction := by
  cases h : p.is_on_ladder <;> cases h2 : p.climbing <;> simp [anim_climb_flag, h, h2]

lemma anim_climb_count_cur (p : Player) :
    (anim_climb_count p).cur_texture =
      if p.climbing = true ∧ 1 < abs p.change_y then bump p.cur_texture
      else p.cur_texture := by
  unfold anim_climb_count
  split_ifs <;> rfl

lemma anim_climb_count_climbing (p : Player) :
    (anim_climb_count p).climbing = p.climbing := by
  unfold anim_climb_count
  split_ifs <;> rfl

lemma anim_climb_count_lad (p : Player) :
    (anim_climb_count p).is_on_ladder = p.is_on_ladder := by
  unfold anim_climb_count
  split_ifs <;> rfl

lemma anim_climb_count_dx (p : Player) : (anim_climb_count p).change_x = p.change_x := by
  unfold anim_climb_count
  split_ifs <;> rfl

lemma anim_climb_count_dy (p : Player) : (anim_climb_count p).change_y = p.change_y := by
  unfold anim_climb_count
  split_ifs <;> rfl

lemma anim_climb_count_face (p : Player) :
    (anim_climb_count p).character_face_direction = p.character_face_direction := by
  unfold anim_climb_count
  split_ifs <;> rfl

lemma anim_pose_face (p : Player) :
    (anim_pose p).character_face_direction = p.character_face_direction := by
  unfold anim_pose
  split_ifs <;> rfl

lemma anim_pose_climbing (p : Player) : (anim_pose p).climbing = p.climbing := by
  unfold anim_pose
  split_ifs <;> rfl

/-- When the climbing flag agrees with the ladder flag (as it does after the
flag checks), the pose stage advances the counter exactly in the walking
branch: off a ladder, vertically still, horizontally moving. -/
lemma anim_pose_cur (p : Player) (hc : p.climbing = p.is_on_ladder) :
    (anim_pose p).cur_texture =
      if p.is_on_ladder = false ∧ p.change_y = 0 ∧ p.change_x ≠ 0 then bump p.cur_texture
      else p.cur_texture := by
  unfold anim_pose
  by_cases a : p.climbing = true
  · rw [if_pos a, if_neg]
    intro hcon
    rw [hcon.1] at hc
    rw [hc] at a
    exact Bool.noConfusion a
  · rw [if_neg a]
    have hlad : p.is_on_ladder = false := by
      rw [← hc]
      revert a
      cases p.climbing <;> simp
    by_cases b : 0 < p.change_y ∧ p.is_on_ladder = false
    · rw [if_pos b, if_neg]
      intro hcon
      rw [hcon.2.1] at b
      exact lt_irrefl 0 b.1
    · rw [if_neg b]
      by_cases c : p.change_y < 0 ∧ p.is_on_ladder = false
      · rw [if_pos c, if_neg]
        intro hcon
        rw [hcon.2.1] at c
        exact lt_irrefl 0 c.1
      · rw [if_neg c]
        by_cases d : p.change_x = 0
        · rw [if_pos d, if_neg]
          intro hcon
          exact hcon.2.2 d
        · rw [if_neg d, if_pos]
          exact ⟨hlad,
            le_antisymm (not_lt.mp fun h => b ⟨h, hlad⟩) (not_lt.mp fun h => c ⟨h, hlad⟩), d⟩

/-- The frame counter of a full update_animation call: bumped exactly when
climbing with vertical speed above 1, or walking (grounded, vertically still,
horizontally moving); otherwise unchanged. -/
lemma update_animation_cur (p : Player) :
    (update_animation p).cur_texture =
      if (p.is_on_ladder = true ∧ 1 < abs p.change_y) ∨
         (p.is_on_ladder = false ∧ p.change_y = 0 ∧ p.change_x ≠ 0)
      then bump p.cur_texture else p.cur_texture := by
  unfold update_animation
  have hpc : (anim_climb_count (anim_climb_flag (anim_face p))).climbing =
      (anim_climb_count (anim_climb_flag (anim_face p))).is_on_ladder := by
    rw [anim_climb_count_climbing, anim_climb_flag_climbing, anim_face_lad,
        anim_climb_count_lad, anim_climb_flag_lad, anim_face_lad]
  rw [anim_pose_cur _ hpc, anim_climb_count_lad, anim_climb_count_dy, anim_climb_count_dx,
      anim_climb_count_cur, anim_climb_flag_climbing, anim_climb_flag_lad, anim_climb_flag_dy,
      anim_climb_flag_dx, anim_climb_flag_cur, anim_face_lad, anim_face_dy, anim_face_dx,
      anim_face_cur]
  cases h : p.is_on_ladder <;> simp [h]

lemma bump_le (n : Nat) : bump n ≤ 7 := by
  unfold bump
  split <;> omega

lemma bump_mod (n : Nat) (h : n ≤ 7) : bump n = (n + 1) % 8 := by
  unfold bump
  split <;> omega

/-- The counter bound is preserved across any sequence of animation calls. -/
lemma anim_run_le (ins : List (ℚ × ℚ × Bool)) (p : Player) (h : p.cur_texture ≤ 7) :
    (anim_run p ins).cur_texture ≤ 7 := by
  induction ins generalizing p with
  | nil => exact h
  | cons i rest ih =>
    obtain ⟨dx, dy, lad⟩ := i
    simp only [anim_run]
    refine ih _ ?_
    rw [update_animation_cur]
    split
    · exact bump_le _
    · exact h

/-- Claim C3: from any in-range counter (in particular from 0), every
update_animation call keeps cur_texture in [0,7]; the counter advances by one
mod 8 exactly when walking (dx not 0, walking pose conditions) or when the
climbing flag is set with vertical speed above 1, and is unchanged otherwise;
the bound holds across every call sequence. -/
theorem C3_frame_counter (p : Player) (ins : List (ℚ × ℚ × Bool))
    (h : p.cur_texture ≤ 7) :
    (update_animation p).cur_texture ≤ 7 ∧
    (update_animation p).cur_texture =
      (if (p.is_on_ladder = true ∧ 1 < abs p.change_y) ∨
          (p.is_on_ladder = false ∧ p.change_y = 0 ∧ p.change_x ≠ 0)
       then (p.cur_texture + 1) % 8 else p.cur_texture) ∧
    (anim_run p ins).cur_texture ≤ 7 := by
  refine ⟨?_, ?_, anim_run_le ins p h⟩
  · rw [update_animation_cur]
    split
    · exact bump_le _
    · exact h
  · rw [update_animation_cur]
    split_ifs
    · exact bump_mod _ h
    · rfl

/-- Concrete climbing player for the C3 witness. -/
def c3p : Player := { cur_texture := 5, is_on_ladder := true, change_y := 3 }

/-- Concrete input sequence for the C3 witness. -/
def c3ins : List (ℚ × ℚ × Bool) := [(7, 0, false), (0, 0, false), (0, 3, true)]

theorem C3_frame_counter_witness :
    c3p.cur_texture ≤ 7 ∧
    ((update_animation c3p).cur_texture ≤ 7 ∧
     (update_animation c3p).cur_texture =
       (if (c3p.is_on_ladder = true ∧ 1 < abs c3p.change_y) ∨
           (c3p.is_on_ladder = false ∧ c3p.change_y = 0 ∧ c3p.change_x ≠ 0)
        then (c3p.cur_texture + 1) % 8 else c3p.cur_texture) ∧
     (anim_run c3p c3ins).cur_texture ≤ 7) :=
  ⟨by decide, C3_frame_counter c3p c3ins (by decide)⟩

/-- Claim C9: the facing direction flips to LEFT_FACING only when moving left
while facing right, flips to RIGHT_FACING only when moving right while facing
left, and is unchanged otherwise; in particular it never changes while the
horizontal velocity is zero. -/
theorem C9_sticky_facing (p : Player) :
    (update_animation p).character_face_direction =
      (if p.change_x < 0 ∧ p.character_face_direction = RIGHT_FACING then LEFT_FACING
       else if 0 < p.change_x ∧ p.character_face_direction = LEFT_FACING then RIGHT_FACING
       else p.character_face_direction) ∧
    (p.change_x = 0 →
      (update_animation p).character_face_direction = p.character_face_direction) := by
  have hmain : (update_animation p).character_face_direction =
      if p.change_x < 0 ∧ p.character_face_direction = RIGHT_FACING then LEFT_FACING
      else if 0 < p.change_x ∧ p.character_face_direction = LEFT_FACING then RIGHT_FACING
      else p.character_face_direction := by
    unfold update_animation anim_face
    rw [anim_pose_face, anim_climb_count_face, anim_climb_flag_face]
    split_ifs <;> rfl
  refine ⟨hmain, ?_⟩
  intro h0
  have hne1 : ¬(p.change_x < 0 ∧ p.character_face_direction = RIGHT_FACING) := by
    intro hcon
    rw [h0] at hcon
    exact lt_irrefl 0 hcon.1
  have hne2 : ¬(0 < p.change_x ∧ p.character_face_direction = LEFT_FACING) := by
    intro hcon
    rw [h0] at hcon
    exact lt_irrefl 0 hcon.1
  rw [hmain, if_neg hne1, if_neg hne2]

/-- The pose produced by the pose stage is a climbing texture exactly when
the climbing flag is set at pose-selection time. -/
lemma anim_pose_texture_climb (p : Player) :
    (anim_pose p).texture.isClimb = p.climbing := by
  cases hcl : p.climbing
  · unfold anim_pose
    rw [if_neg (by rw [hcl]; exact Bool.noConfusion)]
    split_ifs <;> rfl
  · unfold anim_pose
    rw [if_pos hcl]
    rfl

lemma update_animation_climbing (p : Player) :
    (update_animation p).climbing = p.is_on_ladder := by
  unfold update_animation
  rw [anim_pose_climbing, anim_climb_count_climbing, anim_climb_flag_climbing, anim_face_lad]

/-- Concrete player that was climbing on the previous evaluation and has just
left the ladder, vertically and horizontally still. -/
def c7p : Player := { climbing := true, is_on_ladder := false, change_x := 0, change_y := 0 }

/-- Counterexample to claim C7: in the very evaluation in which onLadder has
become false, the climbing flag is already cleared and the selected pose is
idle, not a climbing pose, so the flag used for pose selection does not lag
onLadder by one evaluation. -/
theorem C7_counterexample :
    c7p.climbing = true ∧ c7p.is_on_ladder = false ∧
    (update_animation c7p).climbing = false ∧
    (update_animation c7p).texture = Tex.idle RIGHT_FACING := by decide

/-- Claim C7 as amended: the climbing flag is set whenever onLadder is true,
and when onLadder is false it is cleared within the same evaluation (before
pose selection), so the flag used for pose selection equals the current
onLadder value and a climbing pose is selected exactly while on a ladder. -/
theorem C7_climb_flag_amended (p : Player) :
    (update_animation p).climbing = p.is_on_ladder ∧
    (update_animation p).texture.isClimb = p.is_on_ladder := by
  refine ⟨update_animation_climbing p, ?_⟩
  unfold update_animation
  rw [anim_pose_texture_climb, anim_climb_count_climbing, anim_climb_flag_climbing,
      anim_face_lad]

/-- Claim C6: on a ladder with the level running, process_keychange sets the
vertical velocity to PLAYER_MOVEMENT_SPEED when only up is pressed, to its
negation when only down is pressed, and to 0 when both or neither are
pressed; the result does not depend on the left/right keys or on can_jump. -/
theorem C6_ladder_velocity (c : Bool) (s : GameState) (h : s.level_over = false) :
    (process_keychange true c s).1.player.change_y =
      (if s.up_pressed = true ∧ s.down_pressed = false then PLAYER_MOVEMENT_SPEED
       else if s.down_pressed = true ∧ s.up_pressed = false then -PLAYER_MOVEMENT_SPEED
       else 0) := by
  unfold process_keychange
  rw [if_neg (by rw [h]; exact Bool.noConfusion), pk_leftright_cy]
  cases hu : s.up_pressed <;> cases hd : s.down_pressed <;>
    simp [pk_updown, pk_ladder_neutral, setChangeY, hu, hd]

/-- Concrete on-ladder state for the C6 witness: up held together with both
horizontal keys. -/
def c6s : GameState :=
  { up_pressed := true, down_pressed := false, left_pressed := true,
    right_pressed := true, level_over := false }

theorem C6_ladder_velocity_witness :
    c6s.level_over = false ∧
    (process_keychange true false c6s).1.player.change_y =
      (if c6s.up_pressed = true ∧ c6s.down_pressed = false then PLAYER_MOVEMENT_SPEED
       else if c6s.down_pressed = true ∧ c6s.up_pressed = false then -PLAYER_MOVEMENT_SPEED
       else 0) :=
  ⟨rfl, C6_ladder_velocity false c6s rfl⟩

/-- Claim C10: while level_over holds, a key press or release changes nothing
but the raw key-state booleans (the latch cleared by an up release included)
and, for space, the next_level request; the player record, and in particular
both velocity components, are untouched and no jump sound plays. -/
theorem C10_keys_inert (s : GameState) (k : Key) (l c : Bool) (h : s.level_over = true) :
    on_key_press k l c s =
      ((match k with
        | .up => { s with up_pressed := true }
        | .down => { s with down_pressed := true }
        | .left => { s with left_pressed := true }
        | .right => { s with right_pressed := true }
        | .space => { s with next_level := true }
        | .other => s), 0) ∧
    on_key_release k l c s =
      ((match k with
        | .up => { s with up_pressed := false, jump_needs_reset := false }
        | .down => { s with down_pressed := false }
        | .left => { s with left_pressed := false }
        | .right => { s with right_pressed := false }
        | _ => s), 0) ∧
    (on_key_press k l c s).1.player = s.player ∧
    (on_key_release k l c s).1.player = s.player := by
  have hp : (set_key_press k s).level_over = true := by
    cases k <;> try exact h
    unfold set_key_press
    rw [if_pos h]
    exact h
  have hr : (set_key_release k s).level_over = true := by
    cases k <;> exact h
  have h1 : on_key_press k l c s = (set_key_press k s, 0) := by
    unfold on_key_press
    rw [process_keychange_over l c _ hp]
  have h2 : on_key_release k l c s = (set_key_release k s, 0) := by
    unfold on_key_release
    rw [process_keychange_over l c _ hr]
  refine ⟨?_, ?_, ?_, ?_⟩
  · rw [h1]
    cases k <;> try rfl
    unfold set_key_press
    rw [if_pos h]
  · rw [h2]
    cases k <;> rfl
  · rw [h1]
    cases k <;> try rfl
    unfold set_key_press
    rw [if_pos h]
  · rw [h2]
    cases k <;> rfl

/-- Concrete level-complete state for the C10 witness. -/
def c10s : GameState := { level_over := true }

theorem C10_keys_inert_witness :
    c10s.level_over = true ∧
    (on_key_press Key.space false false c10s = ({ c10s with next_level := true }, 0) ∧
     on_key_release Key.space false false c10s = (c10s, 0) ∧
     (on_key_press Key.space false false c10s).1.player = c10s.player ∧
     (on_key_release Key.space false false c10s).1.player = c10s.player) :=
  ⟨rfl, C10_keys_inert c10s Key.space false false rfl⟩

lemma on_update_score_mono (o : Oracle) (s : GameState) :
    s.score ≤ (on_update o s).1.score := by
  unfold on_update
  split_ifs with hb
  · unfold frame_boundary load_level
    split_ifs <;> exact le_refl _
  · rw [frame_else_score]
    exact Nat.le_add_right _ _

lemma run_frames_score_mono (os : List Oracle) (s : GameState) :
    s.score ≤ (run_frames os s).1.score := by
  induction os generalizing s with
  | nil => exact le_refl _
  | cons o os ih =>
    simp only [run_frames]
    exact (on_update_score_mono o s).trans (ih (on_update o s).1)

lemma on_update_next_level_eq (o : Oracle) (s : GameState) (h : s.next_level = false) :
    (on_update o s).1.next_level = false := by
  unfold on_update
  split_ifs with hb
  · rw [boundary_no_advance o s h]
    exact h
  · rw [frame_else_next_level]
    exact h

lemma on_update_coins_shrink (o : Oracle) (s : GameState) (h : s.next_level = false) :
    (on_update o s).1.coins.Sublist s.coins := by
  unfold on_update
  split_ifs with hb
  · rw [boundary_no_advance o s h]
  · rw [frame_else_coins]
    exact List.filter_sublist _

lemma run_frames_coins_shrink (os : List Oracle) (s : GameState) (h : s.next_level = false) :
    (run_frames os s).1.coins.Sublist s.coins := by
  induction os generalizing s with
  | nil => exact List.Sublist.refl _
  | cons o os ih =>
    simp only [run_frames]
    exact (ih (on_update o s).1 (on_update_next_level_eq o s h)).trans
      (on_update_coins_shrink o s h)

/-- Claim C4: on every normal frame, every coin in collision with the player
adds exactly 10 points and fires one coin sound, the hit coins are removed
from the coin list and can never reappear on later frames within the level,
and the score never decreases across any frame sequence. -/
theorem C4_coin_scoring (o : Oracle) (os : List Oracle) (s : GameState)
    (hb : s.player.right < s.end_of_map) :
    (on_update o s).1.score =
      s.score + 10 * (s.coins.filter fun c => o.collides c).length ∧
    (on_update o s).2.coin_sounds = (s.coins.filter fun c => o.collides c).length ∧
    (on_update o s).1.coins = s.coins.filter (fun c => !o.collides c) ∧
    (∀ cn ∈ s.coins, o.collides cn = true → cn ∉ (on_update o s).1.coins) ∧
    (s.next_level = false →
      ∀ cn ∈ s.coins, o.collides cn = true →
        cn ∉ (run_frames os (on_update o s).1).1.coins) ∧
    s.score ≤ (run_frames os s).1.score := by
  have he : on_update o s = frame_else o s := by
    unfold on_update
    rw [if_neg (not_le.mpr hb)]
  have hnotin : ∀ cn ∈ s.coins, o.collides cn = true → cn ∉ (on_update o s).1.coins := by
    intro cn hcn hcol hmem
    rw [he, frame_else_coins] at hmem
    simp [List.mem_filter, hcol] at hmem
  refine ⟨?_, ?_, ?_, hnotin, ?_, run_frames_score_mono os s⟩
  · rw [he, frame_else_score]
  · rw [he, frame_else_fx_coin]
  · rw [he, frame_else_coins]
  · intro hnl cn hcn hcol hmem
    have hshrink := run_frames_coins_shrink os (on_update o s).1
      (by rw [he, frame_else_next_level]; exact hnl)
    exact hnotin cn hcn hcol (hshrink.subset hmem)

/-- Concrete oracle for the C4 witness: the coin with id 0 collides. -/
def c4o : Oracle := { collides := fun cn => cn.id == 0 }

/-- Concrete in-level state with two coins for the C4 witness. -/
def c4s : GameState :=
  { player := { center_x := 0, half_width := 10 }, end_of_map := 3712,
    coins := [{ id := 0 }, { id := 1 }], score := 20 }

theorem C4_coin_scoring_witness :
    c4s.player.right < c4s.end_of_map ∧
    ((on_update c4o c4s).1.score =
       c4s.score + 10 * (c4s.coins.filter fun c => c4o.collides c).length ∧
     (on_update c4o c4s).2.coin_sounds = (c4s.coins.filter fun c => c4o.collides c).length ∧
     (on_update c4o c4s).1.coins = c4s.coins.filter (fun c => !c4o.collides c) ∧
     (∀ cn ∈ c4s.coins, c4o.collides cn = true → cn ∉ (on_update c4o c4s).1.coins) ∧
     (c4s.next_level = false →
       ∀ cn ∈ c4s.coins, c4o.collides cn = true →
         cn ∉ (run_frames [c4o] (on_update c4o c4s).1).1.coins) ∧
     c4s.score ≤ (run_frames [c4o] c4s).1.score) :=
  ⟨by norm_num [c4s, Player.right],
   C4_coin_scoring c4o [c4o] c4s (by norm_num [c4s, Player.right])⟩

lemma shift_layers_get (level : Nat) (delta : ℚ) :
    ∀ (layers : List BgLayer) (n i : Nat),
      (shift_layers level delta n layers).get? i =
        (layers.get? i).map (shifted_layer level delta (n + i)) := by
  intro layers
  induction layers with
  | nil =>
    intro n i
    simp [shift_layers]
  | cons layer rest ih =>
    intro n i
    cases i with
    | zero => simp [shift_layers]
    | succ j =>
      simp only [shift_layers, List.get?_cons_succ]
      rw [ih (n + 1) j, show n + 1 + j = n + (j + 1) from by omega]

lemma shifted_layer_zero (level count : Nat) (layer : BgLayer) :
    shifted_layer level 0 count layer = layer := by
  unfold shifted_layer
  split_ifs with h
  · rfl
  · have hsp : ∀ sp : Sprite,
        ({ sp with left := sp.left + 0 / (((count : ℚ) + 4) * (1 / 4)) } : Sprite) = sp := by
      intro sp
      have hz : sp.left + 0 / (((count : ℚ) + 4) * (1 / 4)) = sp.left := by
        rw [zero_div, add_zero]
      rw [hz]
    simp [hsp]

lemma shift_layers_zero (level : Nat) (n : Nat) (layers : List BgLayer) :
    shift_layers level 0 n layers = layers := by
  induction layers generalizing n with
  | nil => rfl
  | cons layer rest ih => simp [shift_layers, shifted_layer_zero, ih]

lemma parallax_shift_same (level : Nat) (cx : ℚ) (layers : List BgLayer) :
    parallax_shift level cx cx layers = layers := by
  unfold parallax_shift
  split_ifs with h
  · rw [sub_self, shift_layers_zero]
  · rfl

/-- Claim C5: on a normal frame of a level above 1, background layer i has
every sprite shifted by (cameraX - prevCameraX) / ((i + 4) * 0.25), except
layer index 3 on level 4, which is frozen; with the camera unchanged between
frames the layers are untouched. -/
theorem C5_parallax (o : Oracle) (s : GameState) (i : Nat)
    (hb : s.player.right < s.end_of_map) (hl : 1 < s.level) :
    ((on_update o s).1.bg_layers.get? i =
      (s.bg_layers.get? i).map fun layer =>
        if s.level = 4 ∧ i = 3 then layer
        else { layer with sprites := layer.sprites.map fun sp =>
                { sp with left := sp.left +
                    (o.camera_pos - s.camera_x_prev) / (((i : ℚ) + 4) * (1 / 4)) } }) ∧
    (o.camera_pos = s.camera_x_prev → (on_update o s).1.bg_layers = s.bg_layers) := by
  have he : on_update o s = frame_else o s := by
    unfold on_update
    rw [if_neg (not_le.mpr hb)]
  constructor
  · rw [he, frame_else_bg]
    unfold parallax_shift
    rw [if_pos hl, shift_layers_get, Nat.zero_add]
    congr 1
  · intro hc
    rw [he, frame_else_bg, hc, parallax_shift_same]

/-- Concrete oracle for the C5 witness: camera moved to 300. -/
def c5o : Oracle := { camera_pos := 300 }

/-- Concrete level-2 state with one background layer for the C5 witness. -/
def c5s : GameState :=
  { player := { center_x := 0, half_width := 10 }, end_of_map := 6277,
    level := 2, camera_x_prev := 250,
    bg_layers := [{ sprites := [{ left := 100 }] }] }

theorem C5_parallax_witness :
    (c5s.player.right < c5s.end_of_map ∧ 1 < c5s.level) ∧
    (((on_update c5o c5s).1.bg_layers.get? 0 =
       (c5s.bg_layers.get? 0).map fun layer =>
         if c5s.level = 4 ∧ 0 = 3 then layer
         else { layer with sprites := layer.sprites.map fun sp =>
                 { sp with left := sp.left +
                     (c5o.camera_pos - c5s.camera_x_prev) / ((((0 : Nat) : ℚ) + 4) * (1 / 4)) } }) ∧
     (c5o.camera_pos = c5s.camera_x_prev → (on_update c5o c5s).1.bg_layers = c5s.bg_layers)) :=
  ⟨⟨by norm_num [c5s, Player.right], by decide⟩,
   C5_parallax c5o c5s 0 (by norm_num [c5s, Player.right]) (by decide)⟩

/-- Concrete completed-level state for the C8 counterexample: the player faces
left with a mid-cycle animation counter when the advance fires. -/
def c8s : GameState :=
  { player := { center_x := 4000, half_width := 10,
                character_face_direction := LEFT_FACING, cur_texture := 5 },
    end_of_map := 3712, level := 1, max_level := 4, level_over := true,
    next_level := true, score := 30 }

/-- Counterexample to claim C8 as stated: on the advance transition the player
object is recreated by load_level rather than repositioned, so sprite state
other than position and velocity is not preserved: the facing direction and
the animation counter are reset to their constructor defaults. -/
theorem C8_counterexample :
    c8s.end_of_map ≤ c8s.player.right ∧ c8s.next_level = true ∧
    c8s.level < c8s.max_level ∧
    (on_update oracleW c8s).1.player.character_face_direction ≠
      c8s.player.character_face_direction ∧
    (on_update oracleW c8s).1.player.cur_texture ≠ c8s.player.cur_texture := by
  have hb : c8s.end_of_map ≤ c8s.player.right := by norm_num [c8s, Player.right]
  have he : on_update oracleW c8s = frame_boundary oracleW c8s := by
    unfold on_update
    rw [if_pos hb]
  refine ⟨hb, rfl, by decide, ?_, ?_⟩ <;>
    rw [he, boundary_advance oracleW c8s rfl (by decide)] <;> decide

/-- Claim C8 as amended: on the advance transition from a completed non-final
level, load_level recreates the player as a fresh PlayerCharacter, which
on_update then places at the fixed re-entry point (SCREEN_WIDTH,
SCREEN_HEIGHT / 2) with both velocity components zero; the score is unchanged
by the transition and is reset to 0 only by setup. -/
theorem C8_transition_amended (o : Oracle) (s : GameState)
    (hb : s.end_of_map ≤ s.player.right) (hnl : s.next_level = true)
    (hlt : s.level < s.max_level) :
    (on_update o s).1.player =
      { freshPlayer o.player_half_width with
          center_x := SCREEN_WIDTH, center_y := SCREEN_HEIGHT / 2,
          change_x := 0, change_y := 0 } ∧
    (on_update o s).1.score = s.score ∧
    (setup o s).score = 0 := by
  have he : on_update o s = frame_boundary o s := by
    unfold on_update
    rw [if_pos hb]
  rw [he, boundary_advance o s hnl hlt]
  exact ⟨rfl, rfl, rfl⟩

/-- Concrete completed-level state for the C8 amended witness. -/
def c8w : GameState :=
  { player := { center_x := 4000, half_width := 10 }, end_of_map := 3712,
    level := 2, max_level := 4, level_over := true, next_level := true, score := 70 }

theorem C8_transition_amended_witness :
    (c8w.end_of_map ≤ c8w.player.right ∧ c8w.next_level = true ∧
      c8w.level < c8w.max_level) ∧
    ((on_update oracleW c8w).1.player =
       { freshPlayer oracleW.player_half_width with
           center_x := SCREEN_WIDTH, center_y := SCREEN_HEIGHT / 2,
           change_x := 0, change_y := 0 } ∧
     (on_update oracleW c8w).1.score = c8w.score ∧
     (setup oracleW c8w).score = 0) :=
  ⟨⟨by norm_num [c8w, Player.right], rfl, by decide⟩,
   C8_transition_amended oracleW c8w (by norm_num [c8w, Player.right]) rfl (by decide)⟩

end WhyChem
